import Mathlib

/-!
Shallow embedding of the ConsenSys infura-sdk contract-interaction layer:
the `ERC721Mintable` contract template
(src/lib/ContractTemplates/ERC721Mintable/ERC721Mintable.js), the network
error handler (src/src/lib/error/handler.js) and the `getNFTs` facade
operation (src/src/lib/SDK/sdk.js).

Modelling conventions:
* JavaScript numbers are rationals (`ℚ`); `NaN` and the infinities are
  outside the model (both are rejected by every numeric validation in the
  source: `NaN` is falsy and neither passes `Number.isInteger`).
* A JavaScript value that may be `undefined` is an `Option`; string
  truthiness (`!s`) is the test `s == ""`.
* Each asynchronous method is a pure function from the instance state, the
  call arguments and the outcome the blockchain environment would give to
  the attempted call (`Except String _`), to a result `Res` recording the
  on-chain calls attempted, the thrown error (if any) and the final state.
* Thrown errors carry a tag from the spec error taxonomy: `validation`
  for malformed-input throws, `precondition` for lifecycle-state throws
  (already deployed / not yet deployed), `execution` for errors wrapped by
  a catch block around the on-chain call path, `typeError` for raw
  JavaScript TypeErrors raised outside any classified path.
-/

namespace InfuraSdk

inductive ErrTag where
  | validation
  | precondition
  | execution
  | typeError
  deriving DecidableEq, Repr

structure ErrV where
  tag : ErrTag
  msg : String
  deriving DecidableEq, Repr

/-- A JavaScript value restricted to the shapes the modelled code inspects. -/
inductive JsVal where
  | undefined
  | nullV
  | boolean (b : Bool)
  | number (q : ℚ)
  | stringV (s : String)
  deriving DecidableEq, Repr

/-- Modelled from the spec: `isBoolean` lives in src/lib/utils.js, which is
not in the source tree; the spec requires `approved` to be strictly boolean
(not a string or numeric flag), so the check accepts exactly the boolean
values. -/
def isBoolean : JsVal → Bool
  | .boolean _ => true
  | _ => false

/-- A hexadecimal digit in either case, as accepted by the address check of
ethers. -/
def isHexDigitChar (c : Char) : Bool :=
  (decide ('0' ≤ c) && decide (c ≤ '9')) ||
  (decide ('a' ≤ c) && decide (c ≤ 'f')) ||
  (decide ('A' ≤ c) && decide (c ≤ 'F'))

def hasUpperHexLetter (s : String) : Bool :=
  s.toList.any (fun c => decide ('A' ≤ c) && decide (c ≤ 'F'))

def hasLowerHexLetter (s : String) : Bool :=
  s.toList.any (fun c => decide ('a' ≤ c) && decide (c ≤ 'f'))

/-- The hexadecimal portion of a candidate address: the getAddress regex of
ethers makes the `0x` prefix optional, so the prefix is stripped when
present. -/
def hexPart (s : String) : String :=
  if s.take 2 == "0x" then s.drop 2 else s

/-- A candidate matching the hex form accepted by ethers getAddress:
an optionally 0x-prefixed string of exactly 40 hexadecimal digits. -/
def hexShaped (s : String) : Bool :=
  ((hexPart s).length == 40) && (hexPart s).toList.all isHexDigitChar

/-- A candidate matching the ICAP form recognised by ethers getAddress:
`XE`, two decimal digits, then 30 or 31 alphanumeric characters (ethers
additionally verifies the IBAN checksum of such strings). -/
def icapShaped (s : String) : Bool :=
  (s.length == 34 || s.length == 35) && (s.take 2 == "XE") &&
    ((s.drop 2).take 2).toList.all (fun c => c.isDigit) &&
    (s.drop 4).toList.all (fun c => c.isAlphanum)

/-- ethers.utils.isAddress, modelled syntactically: an optionally
0x-prefixed string of 40 hexadecimal digits. ethers additionally verifies a
keccak-based checksum, but only when the hex digits mix upper and lower
case letters, and it also accepts ICAP `XE…` strings with a valid IBAN
checksum; the model excludes mixed-case hex strings and ICAP-shaped
strings instead of computing either checksum, so on every other string it
agrees with ethers exactly, and it never accepts a string ethers
rejects. -/
def isAddress (s : String) : Bool :=
  hexShaped s &&
    !(hasUpperHexLetter (hexPart s) && hasLowerHexLetter (hexPart s))

/-- A malformed address: a string matching none of the address forms
accepted by ethers getAddress — neither the optionally 0x-prefixed 40-hex
form (so it is empty, of wrong length for that form, or contains a non-hex
character) nor the ICAP `XE…` shape. -/
def malformedAddress (a : String) : Prop :=
  hexShaped a = false ∧ icapShaped a = false

instance (a : String) : Decidable (malformedAddress a) := by
  unfold malformedAddress; infer_instance

/-!  ## Network error handler (src/src/lib/error/handler.js)

`networkErrorHandler` receives an arbitrary JavaScript value and reads its
`code` and `reason` properties.  The model records, for a non-nullish
argument, the string forms that template-literal interpolation would give
to `code`, `reason` and the value itself (`none` models a property that is
absent or holds `undefined`).  For a nullish argument (`null` or
`undefined`) the property read itself throws a TypeError, modelled as the
`error` branch of the result. -/

inductive ErrArg where
  | nullish (isNull : Bool)
  | value (code reason : Option String) (selfStr : String)
  deriving DecidableEq, Repr

def nullPropertyReadMsg (isNull : Bool) : String :=
  if isNull then "TypeError: Cannot read properties of null (reading 'code')"
  else "TypeError: Cannot read properties of undefined (reading 'code')"

def networkErrorHandler : ErrArg → Except String String
  | .nullish b => .error (nullPropertyReadMsg b)
  | .value c r selfStr =>
    match c, r with
    | some cs, some rs => .ok ("code: " ++ cs ++ ", message: " ++ rs)
    | some _, none => .ok ("code: UNKNOWN_ERROR, message: " ++ selfStr)
    | none, _ => .ok ("code: UNKNOWN_ERROR, message: " ++ selfStr)

/-- errorLogger from src/src/lib/error/handler.js: renders
`location message` with ` | options` appended only when `options` is a
non-empty string. -/
def errorLogger (location message options : String) : String :=
  location ++ " " ++ message ++
    (if (options == "") = false then " | " ++ options else "")

/-!  ## ERC721Mintable contract template
(src/lib/ContractTemplates/ERC721Mintable/ERC721Mintable.js) -/

def ADMIN_ROLE : String :=
  "0x0000000000000000000000000000000000000000000000000000000000000000"

def MINTER_ROLE : String :=
  "0x9f2df0fed2c77648de5860a4cc508cd0818c85b8b8a1ab4ceeef8d981c8956a6"

/-- The live contract binding (ethers Contract); only its address is
observable in the model. -/
structure Handle where
  address : String
  deriving DecidableEq, Repr

/-- The mutable fields of an ERC721Mintable instance: the public
`contractAddress` (undefined ↦ `none`), the private `contractDeployed`
handle, and the truthiness of the private signer reference. -/
structure ERC721State where
  contractAddress : Option String
  contractDeployed : Option Handle
  signer : Bool
  deriving DecidableEq, Repr

/-- The state produced by the constructor: both binding fields undefined,
only the signer reference stored. -/
def newInstance (signer : Bool) : ERC721State := ⟨none, none, signer⟩

/-- JavaScript truthiness of a possibly-undefined string field. -/
def truthyStr : Option String → Bool
  | none => false
  | some s => !(s == "")

/-- The guard of every operation that requires a deployed-or-loaded
instance: `!this.#contractDeployed && !this.contractAddress`. -/
def unboundCheck (s : ERC721State) : Bool :=
  s.contractDeployed.isNone && !truthyStr s.contractAddress

/-- The guard of `deploy` and `loadContract`:
`this.contractAddress || this.#contractDeployed`. -/
def alreadyBoundCheck (s : ERC721State) : Bool :=
  truthyStr s.contractAddress || s.contractDeployed.isSome

/-- One call-site on the contract handle (or factory), with the argument
list as the source passes it; `gas` records the `gasLimit` entry of the
overrides object when the call site passes one. -/
inductive ChainCall where
  | factoryDeploy (name symbol contractURI : String)
  | setRoyalties (address : String) (fee : ℚ)
  | royaltyInfo (tokenId sellPrice : ℚ)
  | mintWithTokenURI (publicAddress tokenURI : String) (gas : Option ℕ)
  | grantRole (role publicAddress : String)
  | renounceRole (role publicAddress : String)
  | revokeRole (role publicAddress : String)
  | hasRole (role publicAddress : String)
  | safeTransferFrom (source dest : String) (tokenId : ℚ) (gas : Option ℕ)
  | setContractURI (contractURI : String)
  | setApprovalForAll (dest : String) (approvalStatus : JsVal) (gas : Option ℕ)
  | approve (dest : String) (tokenId : ℚ) (gas : Option ℕ)
  deriving DecidableEq, Repr

/-- The `gasLimit` override a call site passes, if any. -/
def ChainCall.gasOverride : ChainCall → Option ℕ
  | .mintWithTokenURI _ _ g => g
  | .safeTransferFrom _ _ _ g => g
  | .setApprovalForAll _ _ g => g
  | .approve _ _ g => g
  | _ => none

/-- Result of one method run: the on-chain calls attempted, then either a
thrown error or a returned value, together with the instance state after
the run. -/
inductive Res (α : Type) where
  | thrown (calls : List ChainCall) (e : ErrV) (s : ERC721State)
  | ok (calls : List ChainCall) (v : α) (s : ERC721State)
  deriving DecidableEq, Repr

def Res.callsOf {α : Type} : Res α → List ChainCall
  | .thrown calls _ _ => calls
  | .ok calls _ _ => calls

def Res.errTag {α : Type} : Res α → Option ErrTag
  | .thrown _ e _ => some e.tag
  | .ok _ _ _ => none

def Res.stateOf {α : Type} : Res α → ERC721State
  | .thrown _ _ s => s
  | .ok _ _ s => s

/-- The message of the TypeError JavaScript raises when a method is invoked
on the undefined `contractDeployed` handle; the exact wording is
runtime-specific, the model fixes a representative string. -/
def undefinedHandleMsg : String :=
  "TypeError: Cannot read properties of undefined"

/-- The try/catch pattern shared by every method that invokes one handle
method and wraps any failure as `[op] An error occured: <cause>`: when the
handle is undefined the method invocation itself raises a TypeError inside
the try block, which the catch wraps the same way. -/
def callContract (s : ERC721State) (c : ChainCall) (env : Except String Unit)
    (opName : String) : Res Unit :=
  match s.contractDeployed with
  | none =>
    .thrown [] ⟨.execution, opName ++ " An error occured: " ++ undefinedHandleMsg⟩ s
  | some _ =>
    match env with
    | .error e => .thrown [c] ⟨.execution, opName ++ " An error occured: " ++ e⟩ s
    | .ok _ => .ok [c] () s

/-- deploy (lines 38-77): `name` falsy check, `symbol`/`contractURI`
undefined checks, then the factory deployment; on success the handle and
then the address are assigned (no failure point separates the two
assignments); on failure the catch rethrows and neither field was
assigned. `env` is the outcome of the awaited factory deployment. -/
def deploy (s : ERC721State) (name : String) (symbol contractURI : Option String)
    (env : Except String Handle) : Res Unit :=
  if alreadyBoundCheck s then
    .thrown [] ⟨.precondition,
      "[ERC721Mintable.deploy] The contract has already been deployed!"⟩ s
  else if !s.signer then
    .thrown [] ⟨.validation,
      "[ERC721Mintable.deploy] Signer instance is required to interact with contract."⟩ s
  else if name == "" then
    .thrown [] ⟨.validation, "[ERC721Mintable.deploy] Name cannot be empty"⟩ s
  else if symbol.isNone then
    .thrown [] ⟨.validation, "[ERC721Mintable.deploy] symbol cannot be undefined"⟩ s
  else if contractURI.isNone then
    .thrown [] ⟨.validation, "[ERC721Mintable.deploy] contractURI cannot be undefined"⟩ s
  else
    match env with
    | .error e =>
      .thrown [ChainCall.factoryDeploy name (symbol.getD "") (contractURI.getD "")]
        ⟨.execution, "[ERC721Mintable.deploy] An error occured: " ++ e⟩ s
    | .ok h =>
      .ok [ChainCall.factoryDeploy name (symbol.getD "") (contractURI.getD "")] ()
        { s with contractDeployed := some h, contractAddress := some h.address }

/-- loadContract (lines 251-273): binds the instance to an ethers Contract
constructed locally at the given address (no on-chain call is made). -/
def loadContract (s : ERC721State) (contractAddress : String) : Res Unit :=
  if alreadyBoundCheck s then
    .thrown [] ⟨.precondition,
      "[ERC721Mintable.loadContract] The contract has already been loaded!"⟩ s
  else if (contractAddress == "") || !isAddress contractAddress then
    .thrown [] ⟨.validation,
      "[ERC721Mintable.loadContract] A valid contract address is required to load a contract."⟩ s
  else
    .ok [] () { s with contractDeployed := some ⟨contractAddress⟩,
                       contractAddress := some contractAddress }

/-- setRoyalties (lines 85-99): address check, then the fee check
`!fee || !Number.isInteger(fee) || !(fee > 0 && fee < 10000)`, then the
deployed check on `contractAddress` alone; the handle call is returned
without a try/catch. -/
def setRoyalties (s : ERC721State) (address : String) (fee : ℚ)
    (env : Except String Unit) : Res Unit :=
  if (address == "") || !isAddress address then
    .thrown [] ⟨.validation, "[SDK.setRoyalties] Address is required"⟩ s
  else if fee = 0 ∨ fee.den ≠ 1 ∨ ¬(0 < fee ∧ fee < 10000) then
    .thrown [] ⟨.validation,
      "[SDK.setRoyalties] Fee as numeric value between 0 and 10000 is required"⟩ s
  else if !truthyStr s.contractAddress then
    .thrown [] ⟨.precondition, "[SDK.setRoyalties] Contract needs to be deployed"⟩ s
  else
    match s.contractDeployed with
    | none => .thrown [] ⟨.typeError, undefinedHandleMsg⟩ s
    | some _ =>
      match env with
      | .error e => .thrown [ChainCall.setRoyalties address fee] ⟨.execution, e⟩ s
      | .ok _ => .ok [ChainCall.setRoyalties address fee] () s

/-- royaltyInfo (lines 107-121): truthiness checks on both arguments, no
deployed-or-loaded check; the catch block throws the stack string of a
fresh Error wrapping the cause (stack content is runtime-specific, the
model keeps the wrapped cause). -/
def royaltyInfo (s : ERC721State) (tokenId sellPrice : ℚ)
    (env : Except String Unit) : Res Unit :=
  if tokenId = 0 then
    .thrown [] ⟨.validation, "Please add tokenId"⟩ s
  else if sellPrice = 0 then
    .thrown [] ⟨.validation, "Please add sellPrice"⟩ s
  else
    match s.contractDeployed with
    | none => .thrown [] ⟨.execution, "Error: " ++ undefinedHandleMsg⟩ s
    | some _ =>
      match env with
      | .error e =>
        .thrown [ChainCall.royaltyInfo tokenId sellPrice] ⟨.execution, "Error: " ++ e⟩ s
      | .ok _ => .ok [ChainCall.royaltyInfo tokenId sellPrice] () s

/-- mint (lines 129-148). -/
def mint (s : ERC721State) (publicAddress tokenURI : String)
    (env : Except String Unit) : Res Unit :=
  if unboundCheck s then
    .thrown [] ⟨.precondition,
      "[ERC721Mintable.mint] A contract should be deployed or loaded first"⟩ s
  else if (publicAddress == "") || !isAddress publicAddress then
    .thrown [] ⟨.validation, "[ERC721Mintable.mint] A valid address is required to mint."⟩ s
  else if tokenURI == "" then
    .thrown [] ⟨.validation, "[ERC721Mintable.mint] A tokenURI is required to mint."⟩ s
  else
    callContract s (.mintWithTokenURI publicAddress tokenURI (some 6000000)) env
      "[ERC721Mintable.mint]"

/-- addMinter (lines 155-171). -/
def addMinter (s : ERC721State) (publicAddress : String)
    (env : Except String Unit) : Res Unit :=
  if unboundCheck s then
    .thrown [] ⟨.precondition,
      "[ERC721Mintable.addMinter] A contract should be deployed or loaded first"⟩ s
  else if (publicAddress == "") || !isAddress publicAddress then
    .thrown [] ⟨.validation,
      "[ERC721Mintable.addMinter] A valid address is required to add the minter role."⟩ s
  else
    callContract s (.grantRole MINTER_ROLE publicAddress) env "[ERC721Mintable.addMinter]"

/-- renounceMinter (lines 178-196). -/
def renounceMinter (s : ERC721State) (publicAddress : String)
    (env : Except String Unit) : Res Unit :=
  if unboundCheck s then
    .thrown [] ⟨.precondition,
      "[ERC721Mintable.renounceMinter] A contract should be deployed or loaded first"⟩ s
  else if (publicAddress == "") || !isAddress publicAddress then
    .thrown [] ⟨.validation,
      "[ERC721Mintable.renounceMinter] A valid address is required to renounce the minter role."⟩ s
  else
    callContract s (.renounceRole MINTER_ROLE publicAddress) env
      "[ERC721Mintable.renounceMinter]"

/-- removeMinter (lines 203-221). -/
def removeMinter (s : ERC721State) (publicAddress : String)
    (env : Except String Unit) : Res Unit :=
  if unboundCheck s then
    .thrown [] ⟨.precondition,
      "[ERC721Mintable.removeMinter] A contract should be deployed or loaded first"⟩ s
  else if (publicAddress == "") || !isAddress publicAddress then
    .thrown [] ⟨.validation,
      "[ERC721Mintable.removeMinter] A valid address is required to remove the minter role."⟩ s
  else
    callContract s (.revokeRole MINTER_ROLE publicAddress) env "[ERC721Mintable.removeMinter]"

/-- isMinter (lines 228-244). -/
def isMinter (s : ERC721State) (publicAddress : String)
    (env : Except String Unit) : Res Unit :=
  if unboundCheck s then
    .thrown [] ⟨.precondition,
      "[ERC721Mintable.isMinter] A contract should be deployed or loaded first"⟩ s
  else if (publicAddress == "") || !isAddress publicAddress then
    .thrown [] ⟨.validation,
      "[ERC721Mintable.isMinter] A valid address is required to check the minter role."⟩ s
  else
    callContract s (.hasRole MINTER_ROLE publicAddress) env "[ERC721Mintable.isMinter]"

/-- transfer (lines 282-311): the tokenId check is `Number.isInteger` only. -/
def transfer (s : ERC721State) (source dest : String) (tokenId : ℚ)
    (env : Except String Unit) : Res Unit :=
  if unboundCheck s then
    .thrown [] ⟨.precondition,
      "[ERC721Mintable.transfer] A contract should be deployed or loaded first"⟩ s
  else if (source == "") || !isAddress source then
    .thrown [] ⟨.validation,
      "[ERC721Mintable.transfer] A valid address \"from\" is required to transfer."⟩ s
  else if (dest == "") || !isAddress dest then
    .thrown [] ⟨.validation,
      "[ERC721Mintable.transfer] A valid address \"to\" is required to transfer."⟩ s
  else if tokenId.den ≠ 1 then
    .thrown [] ⟨.validation, "[ERC721Mintable.transfer] TokenId should be an integer."⟩ s
  else
    callContract s (.safeTransferFrom source dest tokenId (some 6000000)) env
      "[ERC721Mintable.transfer]"

/-- setContractURI (lines 319-335). -/
def setContractURI (s : ERC721State) (contractURI : String)
    (env : Except String Unit) : Res Unit :=
  if unboundCheck s then
    .thrown [] ⟨.precondition,
      "[ERC721Mintable.setContractURI] A contract should be deployed or loaded first!"⟩ s
  else if contractURI == "" then
    .thrown [] ⟨.validation, "[ERC721Mintable.setContractURI] A valid contract uri is required!"⟩ s
  else
    callContract s (.setContractURI contractURI) env "[ERC721Mintable.setContractURI]"

/-- addAdmin (lines 343-359). -/
def addAdmin (s : ERC721State) (publicAddress : String)
    (env : Except String Unit) : Res Unit :=
  if unboundCheck s then
    .thrown [] ⟨.precondition,
      "[ERC721Mintable.addAdmin] A contract should be deployed or loaded first!"⟩ s
  else if (publicAddress == "") || !isAddress publicAddress then
    .thrown [] ⟨.validation,
      "[ERC721Mintable.addAdmin] A valid address is required to add the admin role."⟩ s
  else
    callContract s (.grantRole ADMIN_ROLE publicAddress) env "[ERC721Mintable.addAdmin]"

/-- removeAdmin (lines 367-385). -/
def removeAdmin (s : ERC721State) (publicAddress : String)
    (env : Except String Unit) : Res Unit :=
  if unboundCheck s then
    .thrown [] ⟨.precondition,
      "[ERC721Mintable.removeAdmin] A contract should be deployed or loaded first!"⟩ s
  else if (publicAddress == "") || !isAddress publicAddress then
    .thrown [] ⟨.validation,
      "[ERC721Mintable.removeAdmin] A valid address is required to remove the admin role."⟩ s
  else
    callContract s (.revokeRole ADMIN_ROLE publicAddress) env "[ERC721Mintable.removeAdmin]"

/-- renounceAdmin (lines 393-411). -/
def renounceAdmin (s : ERC721State) (publicAddress : String)
    (env : Except String Unit) : Res Unit :=
  if unboundCheck s then
    .thrown [] ⟨.precondition,
      "[ERC721Mintable.renounceAdmin] A contract should be deployed or loaded first!"⟩ s
  else if (publicAddress == "") || !isAddress publicAddress then
    .thrown [] ⟨.validation,
      "[ERC721Mintable.renounceAdmin] A valid address is required to renounce the admin role."⟩ s
  else
    callContract s (.renounceRole ADMIN_ROLE publicAddress) env
      "[ERC721Mintable.renounceAdmin]"

/-- isAdmin (lines 418-434). -/
def isAdmin (s : ERC721State) (publicAddress : String)
    (env : Except String Unit) : Res Unit :=
  if unboundCheck s then
    .thrown [] ⟨.precondition,
      "[ERC721Mintable.isAdmin] A contract should be deployed or loaded first!"⟩ s
  else if (publicAddress == "") || !isAddress publicAddress then
    .thrown [] ⟨.validation,
      "[ERC721Mintable.isAdmin] A valid address is required to check the admin role."⟩ s
  else
    callContract s (.hasRole ADMIN_ROLE publicAddress) env "[ERC721Mintable.isAdmin]"

/-- setApprovalForAll (lines 443-467): the handle call receives the
approval value as passed; no overrides object is supplied. -/
def setApprovalForAll (s : ERC721State) (dest : String) (approvalStatus : JsVal)
    (env : Except String Unit) : Res Unit :=
  if unboundCheck s then
    .thrown [] ⟨.precondition,
      "[ERC721Mintable.setApprovalForAll] A contract should be deployed or loaded first."⟩ s
  else if (dest == "") || !isAddress dest then
    .thrown [] ⟨.validation,
      "[ERC721Mintable.setApprovalForAll] An address is required to setApprovalForAll."⟩ s
  else if !isBoolean approvalStatus then
    .thrown [] ⟨.validation,
      "[ERC721Mintable.setApprovalForAll] approvalStatus param should be a boolean."⟩ s
  else
    callContract s (.setApprovalForAll dest approvalStatus none) env
      "[ERC721Mintable.setApprovalForAll]"

/-- approveTransfer (lines 475-497): no overrides object is supplied to
`approve`. -/
def approveTransfer (s : ERC721State) (dest : String) (tokenId : ℚ)
    (env : Except String Unit) : Res Unit :=
  if unboundCheck s then
    .thrown [] ⟨.precondition,
      "[ERC721Mintable.approveTransfer] A contract should be deployed or loaded first"⟩ s
  else if (dest == "") || !isAddress dest then
    .thrown [] ⟨.validation,
      "[ERC721Mintable.approveTransfer] A valid address \"to\" is required to transfer."⟩ s
  else if tokenId.den ≠ 1 then
    .thrown [] ⟨.validation, "[ERC721Mintable.approveTransfer] TokenId should be an integer."⟩ s
  else
    callContract s (.approve dest tokenId none) env "[ERC721Mintable.approveTransfer]"

/-- The bound-required operations of the template, with their argument
values, for quantifying over the operation set. -/
inductive Op where
  | mintOp (publicAddress tokenURI : String)
  | transferOp (source dest : String) (tokenId : ℚ)
  | approveTransferOp (dest : String) (tokenId : ℚ)
  | setApprovalForAllOp (dest : String) (approvalStatus : JsVal)
  | setContractURIOp (contractURI : String)
  | setRoyaltiesOp (address : String) (fee : ℚ)
  | addMinterOp (publicAddress : String)
  | removeMinterOp (publicAddress : String)
  | renounceMinterOp (publicAddress : String)
  | isMinterOp (publicAddress : String)
  | addAdminOp (publicAddress : String)
  | removeAdminOp (publicAddress : String)
  | renounceAdminOp (publicAddress : String)
  | isAdminOp (publicAddress : String)
  deriving DecidableEq, Repr

def runOp (op : Op) (s : ERC721State) (env : Except String Unit) : Res Unit :=
  match op with
  | .mintOp a uri => mint s a uri env
  | .transferOp source dest t => transfer s source dest t env
  | .approveTransferOp dest t => approveTransfer s dest t env
  | .setApprovalForAllOp dest st => setApprovalForAll s dest st env
  | .setContractURIOp uri => setContractURI s uri env
  | .setRoyaltiesOp a fee => setRoyalties s a fee env
  | .addMinterOp a => addMinter s a env
  | .removeMinterOp a => removeMinter s a env
  | .renounceMinterOp a => renounceMinter s a env
  | .isMinterOp a => isMinter s a env
  | .addAdminOp a => addAdmin s a env
  | .removeAdminOp a => removeAdmin s a env
  | .renounceAdminOp a => renounceAdmin s a env
  | .isAdminOp a => isAdmin s a env

/-- The operations whose first statement is the deployed-or-loaded guard:
every bound-required operation except `setRoyalties`, whose source checks
its address and fee arguments before the deployed check. -/
def Op.checksBoundFirst : Op → Bool
  | .setRoyaltiesOp _ _ => false
  | _ => true

/-!  ## SDK facade: getNFTs (src/src/lib/SDK/sdk.js, lines 130-155) -/

/-- One asset of the owned-NFT listing payload: the `metadata` field the
facade may strip, and the remaining fields, opaque to the facade. -/
structure Asset (μ ρ : Type) where
  metadata : Option μ
  rest : ρ
  deriving DecidableEq, Repr

/-- The decoded response payload of the owned-NFT listing endpoint: the
`assets` array and the remaining fields, opaque to the facade. -/
structure NFTPayload (μ ρ π : Type) where
  assets : List (Asset μ ρ)
  rest : π
  deriving DecidableEq, Repr

/-- Modelled from the spec: the `invalid account address` entry of the
error message enumeration (src/lib/errorMessages.js is not in the source
tree); the claim under verification does not depend on its wording. -/
def invalidAccountAddressMsg : String :=
  "[SDK.getNFTs] An invalid account address is required"

/-- getNFTs: address validation, then the HTTP GET (its decoded payload is
the `data` argument); with `includeMetadata = false` the payload is copied
with each asset destructured to drop its `metadata` key; otherwise the
payload is returned unchanged. -/
def getNFTs {μ ρ π : Type} (publicAddress : String) (includeMetadata : Bool)
    (data : NFTPayload μ ρ π) : Except ErrV (NFTPayload μ ρ π) :=
  if (publicAddress == "") || !isAddress publicAddress then
    .error ⟨.validation, invalidAccountAddressMsg⟩
  else if !includeMetadata then
    .ok { data with assets := data.assets.map (fun a => { a with metadata := none }) }
  else
    .ok data

/-!  ## Concrete instances used by witnesses -/

/-- A syntactically valid (all-lowercase) account address. -/
def addrA : String := "0xaaaaaaaaaaaaaaaaaaaaaaaaaaaaaaaaaaaaaaaa"

/-- A second syntactically valid account address. -/
def addrB : String := "0xbbbbbbbbbbbbbbbbbbbbbbbbbbbbbbbbbbbbbbbb"

/-- An unprefixed string of 40 hexadecimal digits: length 40 and no 0x
prefix, yet accepted by ethers.utils.isAddress, whose regex makes the
prefix optional. -/
def bareAddr : String := "aaaaaaaaaaaaaaaaaaaaaaaaaaaaaaaaaaaaaaaa"

/-- A bound instance state: loaded or deployed at `addrA`. -/
def boundS : ERC721State := ⟨some addrA, some ⟨addrA⟩, true⟩

/-- A thrown result with tag `validation`, no chain call attempted, and the
instance state unchanged. -/
def rejectedByValidation {α : Type} (r : Res α) (s : ERC721State) : Prop :=
  r.errTag = some ErrTag.validation ∧ r.callsOf = [] ∧ r.stateOf = s

/-- The JavaScript number 9999.5, as a rational in lowest terms. -/
def fee9999p5 : ℚ := ⟨19999, 2, by decide, by decide⟩

/-!  ## Helper lemmas -/

theorem isAddress_eq_false_of_malformed {a : String} (h : malformedAddress a) :
    isAddress a = false := by
  unfold isAddress
  rw [h.1]
  rfl

theorem isAddress_ne_empty {a : String} (h : isAddress a = true) :
    (a == "") = false := by
  cases he : (a == "") with
  | false => rfl
  | true =>
    have ha : a = "" := by simpa using he
    subst ha
    exact absurd h (by decide)

theorem fee9999p5_eq : fee9999p5 = 19999 / 2 := by
  have h2 : (19999 : ℚ) / 2 = ((19999 : ℤ) : ℚ) / ((2 : ℤ) : ℚ) := by norm_num
  rw [h2, Rat.intCast_div_eq_divInt]
  decide

theorem alreadyBound_false_elim {s : ERC721State} (h : alreadyBoundCheck s = false) :
    s.contractDeployed = none ∧ truthyStr s.contractAddress = false := by
  unfold alreadyBoundCheck at h
  rcases Bool.or_eq_false_iff.mp h with ⟨h1, h2⟩
  refine ⟨?_, h1⟩
  cases hc : s.contractDeployed with
  | none => rfl
  | some _ => rw [hc] at h2; simp at h2

theorem unbound_true_elim {s : ERC721State} (h : unboundCheck s = true) :
    s.contractDeployed = none ∧ truthyStr s.contractAddress = false := by
  unfold unboundCheck at h
  rcases Bool.and_eq_true_iff.mp h with ⟨h1, h2⟩
  constructor
  · cases hc : s.contractDeployed with
    | none => rfl
    | some _ => rw [hc] at h1; simp at h1
  · simpa using h2

/-!  ## Claim theorems -/

/-- C8 counterexample: `networkErrorHandler` does not return for every
input whatsoever — on the input `null` the property read `error['code']`
itself throws a TypeError, so the function raises instead of returning the
UNKNOWN_ERROR string. -/
theorem networkErrorHandler_null_counterexample :
    networkErrorHandler (.nullish true) = .error (nullPropertyReadMsg true) ∧
    (networkErrorHandler (.nullish true)).isOk = false := by
  constructor <;> rfl

/-- C8 (amended): for every non-nullish input, `networkErrorHandler` is
total and pure: when both the `code` and `reason` properties are defined it
returns exactly `code: <code>, message: <reason>`; otherwise it returns
exactly `code: UNKNOWN_ERROR, message: <stringified input>`.  On the
nullish inputs `null` and `undefined` the property read throws a TypeError
instead. -/
theorem networkErrorHandler_characterization :
    ∀ (code reason : Option String) (selfStr : String),
      (∀ c r, code = some c → reason = some r →
        networkErrorHandler (.value code reason selfStr) =
          .ok ("code: " ++ c ++ ", message: " ++ r)) ∧
      (code = none ∨ reason = none →
        networkErrorHandler (.value code reason selfStr) =
          .ok ("code: UNKNOWN_ERROR, message: " ++ selfStr)) ∧
      (∀ b, networkErrorHandler (.nullish b) = .error (nullPropertyReadMsg b)) := by
  intro code reason selfStr
  refine ⟨?_, ?_, fun b => rfl⟩
  · rintro c r rfl rfl
    rfl
  · rintro (rfl | rfl)
    · rfl
    · cases code <;> rfl

/-- C8 witness: the spec example input with both fields defined. -/
theorem networkErrorHandler_characterization_witness :
    networkErrorHandler
        (.value (some "UNPREDICTABLE_GAS_LIMIT")
          (some "cannot estimate gas; transaction may fail or may require manual gas limit")
          "[object Object]") =
      .ok ("code: UNPREDICTABLE_GAS_LIMIT, message: " ++
        "cannot estimate gas; transaction may fail or may require manual gas limit") :=
  (networkErrorHandler_characterization
      (some "UNPREDICTABLE_GAS_LIMIT")
      (some "cannot estimate gas; transaction may fail or may require manual gas limit")
      "[object Object]").1
    "UNPREDICTABLE_GAS_LIMIT"
    "cannot estimate gas; transaction may fail or may require manual gas limit" rfl rfl

/-- C9: for every valid account address and every response payload,
`getNFTs` with `includeMetadata = false` returns the payload with each
asset identical to the raw asset except that its `metadata` field is
absent (every other field of each asset and of the payload unchanged);
with `includeMetadata = true` it returns the payload unchanged. -/
theorem getNFTs_metadata_stripping :
    ∀ (μ ρ π : Type) (publicAddress : String) (data : NFTPayload μ ρ π),
      isAddress publicAddress = true →
      getNFTs publicAddress false data =
        .ok ⟨data.assets.map (fun a => ⟨none, a.rest⟩), data.rest⟩ ∧
      getNFTs publicAddress true data = .ok data := by
  intro μ ρ π publicAddress data h
  have hne : (publicAddress == "") = false := isAddress_ne_empty h
  constructor <;> simp [getNFTs, hne, h]

/-- C9 witness: a concrete payload with two assets, one carrying metadata. -/
theorem getNFTs_metadata_stripping_witness :
    getNFTs (μ := Nat) (ρ := Nat) (π := Nat) addrA false ⟨[⟨some 5, 7⟩, ⟨none, 8⟩], 3⟩ =
        .ok ⟨[⟨none, 7⟩, ⟨none, 8⟩], 3⟩ ∧
    getNFTs (μ := Nat) (ρ := Nat) (π := Nat) addrA true ⟨[⟨some 5, 7⟩, ⟨none, 8⟩], 3⟩ =
        .ok ⟨[⟨some 5, 7⟩, ⟨none, 8⟩], 3⟩ :=
  getNFTs_metadata_stripping Nat Nat Nat addrA ⟨[⟨some 5, 7⟩, ⟨none, 8⟩], 3⟩ (by decide)

/-- C10: `royaltyInfo` treats 0 as an absent argument: on every instance
state, tokenId 0 raises the missing-tokenId error and (for nonzero
tokenId) sellPrice 0 raises the missing-sellPrice error; the on-chain
query is attempted only when both arguments are truthy; and no run of
`royaltyInfo` ever raises a precondition-tagged (deployed-or-loaded)
error, because the method performs no bound-state check of its own. -/
theorem royaltyInfo_zero_treated_as_absent :
    ∀ (s : ERC721State) (tokenId sellPrice : ℚ) (env : Except String Unit),
      (tokenId = 0 →
        royaltyInfo s tokenId sellPrice env =
          .thrown [] ⟨.validation, "Please add tokenId"⟩ s) ∧
      (tokenId ≠ 0 → sellPrice = 0 →
        royaltyInfo s tokenId sellPrice env =
          .thrown [] ⟨.validation, "Please add sellPrice"⟩ s) ∧
      ((royaltyInfo s tokenId sellPrice env).callsOf ≠ [] →
        tokenId ≠ 0 ∧ sellPrice ≠ 0) ∧
      (royaltyInfo s tokenId sellPrice env).errTag ≠ some ErrTag.precondition := by
  intro s tokenId sellPrice env
  refine ⟨fun h0 => by simp [royaltyInfo, h0], fun h0 h1 => by simp [royaltyInfo, h0, h1],
    ?_, ?_⟩
  · intro hc
    by_cases h0 : tokenId = 0
    · simp [royaltyInfo, h0, Res.callsOf] at hc
    · by_cases h1 : sellPrice = 0
      · simp [royaltyInfo, h0, h1, Res.callsOf] at hc
      · exact ⟨h0, h1⟩
  · unfold royaltyInfo
    by_cases h0 : tokenId = 0
    · simp [h0, Res.errTag]
    · by_cases h1 : sellPrice = 0
      · simp [h0, h1, Res.errTag]
      · cases s.contractDeployed with
        | none => simp [h0, h1, Res.errTag]
        | some h => cases env <;> simp [h0, h1, Res.errTag]

/-- C10 witness: tokenId 0 on the bound instance triggers the
missing-tokenId error; sellPrice 0 with tokenId 1 triggers the
missing-sellPrice error. -/
theorem royaltyInfo_zero_treated_as_absent_witness :
    royaltyInfo boundS 0 5 (.ok ()) =
        .thrown [] ⟨.validation, "Please add tokenId"⟩ boundS ∧
    royaltyInfo boundS 1 0 (.ok ()) =
        .thrown [] ⟨.validation, "Please add sellPrice"⟩ boundS :=
  ⟨(royaltyInfo_zero_treated_as_absent boundS 0 5 (.ok ())).1 rfl,
   (royaltyInfo_zero_treated_as_absent boundS 1 0 (.ok ())).2.1 (by decide) rfl⟩

/-- C1: bind-once lifecycle: a fresh instance has both binding fields
unset; a successful `deploy` or `loadContract` is possible only while the
deployment handle is unset and the contract address is unset (not truthy),
and sets both fields together; and on any instance where either field is
set, both `deploy` and `loadContract` raise the already-deployed /
already-loaded precondition error without modifying either field. -/
theorem bind_once_lifecycle :
    (∀ sg, (newInstance sg).contractAddress = none ∧
      (newInstance sg).contractDeployed = none) ∧
    (∀ s name symbol contractURI env cs s',
      deploy s name symbol contractURI env = .ok cs () s' →
        (s.contractDeployed = none ∧ truthyStr s.contractAddress = false) ∧
        ∃ h, env = .ok h ∧ s'.contractDeployed = some h ∧
          s'.contractAddress = some h.address) ∧
    (∀ s a cs s',
      loadContract s a = .ok cs () s' →
        (s.contractDeployed = none ∧ truthyStr s.contractAddress = false) ∧
        (s'.contractDeployed = some ⟨a⟩ ∧ s'.contractAddress = some a ∧
          isAddress a = true)) ∧
    (∀ s : ERC721State,
      s.contractDeployed.isSome = true ∨ truthyStr s.contractAddress = true →
      (∀ name symbol contractURI env,
        deploy s name symbol contractURI env =
          .thrown [] ⟨.precondition,
            "[ERC721Mintable.deploy] The contract has already been deployed!"⟩ s) ∧
      (∀ a, loadContract s a =
          .thrown [] ⟨.precondition,
            "[ERC721Mintable.loadContract] The contract has already been loaded!"⟩ s)) := by
  refine ⟨fun sg => ⟨rfl, rfl⟩, ?_, ?_, ?_⟩
  · intro s name symbol contractURI env cs s' hd
    unfold deploy at hd
    split at hd
    · exact absurd hd (by simp)
    · rename_i hbound
      have hub := alreadyBound_false_elim (Bool.eq_false_iff.mpr hbound)
      split at hd
      · exact absurd hd (by simp)
      · split at hd
        · exact absurd hd (by simp)
        · split at hd
          · exact absurd hd (by simp)
          · split at hd
            · exact absurd hd (by simp)
            · split at hd
              · exact absurd hd (by simp)
              · rename_i hv
                refine ⟨hub, hv, rfl, ?_, ?_⟩
                · injection hd with h1 h2 h3
                  rw [← h3]
                · injection hd with h1 h2 h3
                  rw [← h3]
  · intro s a cs s' hl
    unfold loadContract at hl
    split at hl
    · exact absurd hl (by simp)
    · rename_i hbound
      have hub := alreadyBound_false_elim (Bool.eq_false_iff.mpr hbound)
      split at hl
      · exact absurd hl (by simp)
      · rename_i hval
        have hva : isAddress a = true := by
          rcases Bool.or_eq_false_iff.mp (Bool.eq_false_iff.mpr hval) with ⟨h1, h2⟩
          simpa using h2
        injection hl with h1 h2 h3
        exact ⟨hub, by rw [← h3], by rw [← h3], hva⟩
  · intro s hb
    have hbc : alreadyBoundCheck s = true := by
      rcases hb with h | h <;> simp [alreadyBoundCheck, h]
    exact ⟨fun name symbol contractURI env => by simp [deploy, hbc],
      fun a => by simp [loadContract, hbc]⟩

/-- C1 witness: on the instance bound at `addrA`, both `deploy` and
`loadContract` raise the precondition error and leave the state intact. -/
theorem bind_once_lifecycle_witness :
    deploy boundS "MyNFT" (some "NFT") (some "uri") (.ok ⟨addrB⟩) =
      .thrown [] ⟨.precondition,
        "[ERC721Mintable.deploy] The contract has already been deployed!"⟩ boundS ∧
    loadContract boundS addrB =
      .thrown [] ⟨.precondition,
        "[ERC721Mintable.loadContract] The contract has already been loaded!"⟩ boundS :=
  ⟨(bind_once_lifecycle.2.2.2 boundS (Or.inl (by decide))).1
      "MyNFT" (some "NFT") (some "uri") (.ok ⟨addrB⟩),
   (bind_once_lifecycle.2.2.2 boundS (Or.inl (by decide))).2 addrB⟩

/-- C6: deploy is atomic on failure: for every input passing the
validations, when the on-chain deployment fails the method rethrows the
wrapped execution error with the instance state unchanged, so the
not-already-bound precondition of a fresh deploy attempt still holds. -/
theorem deploy_atomic_on_failure :
    ∀ (s : ERC721State) (name : String) (symbol contractURI : Option String)
      (e : String),
      alreadyBoundCheck s = false → s.signer = true → (name == "") = false →
      symbol.isNone = false → contractURI.isNone = false →
      deploy s name symbol contractURI (.error e) =
        .thrown [ChainCall.factoryDeploy name (symbol.getD "") (contractURI.getD "")]
          ⟨.execution, "[ERC721Mintable.deploy] An error occured: " ++ e⟩ s ∧
      alreadyBoundCheck (deploy s name symbol contractURI (.error e)).stateOf = false := by
  intro s name symbol contractURI e h1 h2 h3 h4 h5
  have hd : deploy s name symbol contractURI (.error e) =
      .thrown [ChainCall.factoryDeploy name (symbol.getD "") (contractURI.getD "")]
        ⟨.execution, "[ERC721Mintable.deploy] An error occured: " ++ e⟩ s := by
    simp [deploy, h1, h2, h3, h4, h5]
  exact ⟨hd, by rw [hd]; exact h1⟩

/-- C6 witness: a failing deployment on a fresh instance leaves it
unbound. -/
theorem deploy_atomic_on_failure_witness :
    deploy (newInstance true) "MyNFT" (some "NFT") (some "uri") (.error "revert") =
      .thrown [ChainCall.factoryDeploy "MyNFT" "NFT" "uri"]
        ⟨.execution, "[ERC721Mintable.deploy] An error occured: " ++ "revert"⟩
        (newInstance true) ∧
    alreadyBoundCheck
        (deploy (newInstance true) "MyNFT" (some "NFT") (some "uri")
          (.error "revert")).stateOf = false :=
  deploy_atomic_on_failure (newInstance true) "MyNFT" (some "NFT") (some "uri")
    "revert" (by decide) rfl (by decide) rfl rfl

/-- C2: on a bound instance with a valid address, `setRoyalties` proceeds
to the on-chain call exactly when the fee is an integer strictly between 0
and 10000, and otherwise raises the fee ValidationError without touching
the chain or the state. -/
theorem setRoyalties_fee_gate :
    ∀ (s : ERC721State) (h : Handle) (address : String) (fee : ℚ)
      (env : Except String Unit),
      s.contractDeployed = some h → truthyStr s.contractAddress = true →
      isAddress address = true →
      (((setRoyalties s address fee env).callsOf =
          [ChainCall.setRoyalties address fee]) ↔
        (fee.den = 1 ∧ 0 < fee ∧ fee < 10000)) ∧
      (¬(fee.den = 1 ∧ 0 < fee ∧ fee < 10000) →
        setRoyalties s address fee env =
          .thrown [] ⟨.validation,
            "[SDK.setRoyalties] Fee as numeric value between 0 and 10000 is required"⟩ s) := by
  intro s h address fee env hcd hca haddr
  have hne := isAddress_ne_empty haddr
  by_cases hfee : fee.den = 1 ∧ 0 < fee ∧ fee < 10000
  · have hcond : ¬(fee = 0 ∨ fee.den ≠ 1 ∨ ¬(0 < fee ∧ fee < 10000)) := by
      push_neg
      refine ⟨?_, hfee.1, hfee.2⟩
      intro h0
      rw [h0] at hfee
      exact absurd hfee.2.1 (lt_irrefl 0)
    have hcalls : (setRoyalties s address fee env).callsOf =
        [ChainCall.setRoyalties address fee] := by
      unfold setRoyalties
      rw [if_neg (by simp [hne, haddr]), if_neg hcond, if_neg (by simp [hca]), hcd]
      cases env <;> rfl
    exact ⟨⟨fun _ => hfee, fun _ => hcalls⟩, fun hc => absurd hfee hc⟩
  · have hcond : fee = 0 ∨ fee.den ≠ 1 ∨ ¬(0 < fee ∧ fee < 10000) := by
      rcases Decidable.not_and_iff_or_not.mp hfee with h1 | h1
      · exact Or.inr (Or.inl h1)
      · exact Or.inr (Or.inr (Decidable.not_and_iff_or_not.mp h1 |>.elim
          (fun h2 hh => h2 hh.1) (fun h2 hh => h2 hh.2)))
    have hth : setRoyalties s address fee env =
        .thrown [] ⟨.validation,
          "[SDK.setRoyalties] Fee as numeric value between 0 and 10000 is required"⟩ s := by
      unfold setRoyalties
      rw [if_neg (by simp [hne, haddr]), if_pos hcond]
    refine ⟨?_, fun _ => hth⟩
    rw [hth]
    constructor
    · intro hc
      exact absurd hc (by simp [Res.callsOf])
    · intro hr
      exact absurd hr hfee

/-- C2 witness: on the bound instance with a valid address, the boundary
fees 0, 10000 and 9999.5 are rejected with the fee ValidationError while 1
and 9999 reach the on-chain call. -/
theorem setRoyalties_fee_gate_witness :
    (setRoyalties boundS addrA 1 (.ok ())).callsOf =
        [ChainCall.setRoyalties addrA 1] ∧
    (setRoyalties boundS addrA 9999 (.ok ())).callsOf =
        [ChainCall.setRoyalties addrA 9999] ∧
    setRoyalties boundS addrA 0 (.ok ()) =
      .thrown [] ⟨.validation,
        "[SDK.setRoyalties] Fee as numeric value between 0 and 10000 is required"⟩ boundS ∧
    setRoyalties boundS addrA 10000 (.ok ()) =
      .thrown [] ⟨.validation,
        "[SDK.setRoyalties] Fee as numeric value between 0 and 10000 is required"⟩ boundS ∧
    setRoyalties boundS addrA fee9999p5 (.ok ()) =
      .thrown [] ⟨.validation,
        "[SDK.setRoyalties] Fee as numeric value between 0 and 10000 is required"⟩ boundS :=
  ⟨((setRoyalties_fee_gate boundS ⟨addrA⟩ addrA 1 (.ok ()) rfl rfl (by decide)).1).mpr
      (by norm_num),
   ((setRoyalties_fee_gate boundS ⟨addrA⟩ addrA 9999 (.ok ()) rfl rfl (by decide)).1).mpr
      (by norm_num),
   (setRoyalties_fee_gate boundS ⟨addrA⟩ addrA 0 (.ok ()) rfl rfl (by decide)).2
      (by norm_num),
   (setRoyalties_fee_gate boundS ⟨addrA⟩ addrA 10000 (.ok ()) rfl rfl (by decide)).2
      (by norm_num),
   (setRoyalties_fee_gate boundS ⟨addrA⟩ addrA fee9999p5 (.ok ()) rfl rfl (by decide)).2
      (by norm_num [fee9999p5_eq])⟩

/-- C3 counterexample: on the unbound freshly-constructed instance,
`setRoyalties` with an invalid (empty) address raises the address
ValidationError, not the deployed-or-loaded PreconditionError, because its
argument validation precedes its bound-state check. -/
theorem unbound_setRoyalties_counterexample :
    runOp (.setRoyaltiesOp "" 1) (newInstance true) (.ok ()) =
      .thrown [] ⟨.validation, "[SDK.setRoyalties] Address is required"⟩
        (newInstance true) ∧
    (runOp (.setRoyaltiesOp "" 1) (newInstance true) (.ok ())).errTag ≠
      some ErrTag.precondition := by
  constructor <;> decide

/-- C3 (amended): for every bound-required operation and every argument
value, a call on an unbound instance throws before any on-chain call and
leaves the state unchanged; the thrown error is the PreconditionError for
every operation except `setRoyalties`, which validates its address and fee
arguments first: it raises the PreconditionError exactly when both
arguments are valid, and a ValidationError otherwise. -/
theorem unbound_ops_precondition :
    ∀ (op : Op) (s : ERC721State) (env : Except String Unit),
      unboundCheck s = true →
      (runOp op s env).callsOf = [] ∧
      (runOp op s env).stateOf = s ∧
      (op.checksBoundFirst = true →
        (runOp op s env).errTag = some ErrTag.precondition) ∧
      (∀ address fee, op = .setRoyaltiesOp address fee →
        ((runOp op s env).errTag = some ErrTag.precondition ∨
          (runOp op s env).errTag = some ErrTag.validation) ∧
        ((runOp op s env).errTag = some ErrTag.precondition ↔
          isAddress address = true ∧ fee.den = 1 ∧ 0 < fee ∧ fee < 10000)) := by
  intro op s env hu
  have hca := (unbound_true_elim hu).2
  cases op with
  | setRoyaltiesOp address fee =>
    by_cases ha : isAddress address = true
    · have hne := isAddress_ne_empty ha
      by_cases hfee : fee = 0 ∨ fee.den ≠ 1 ∨ ¬(0 < fee ∧ fee < 10000)
      · have hth : setRoyalties s address fee env =
            .thrown [] ⟨.validation,
              "[SDK.setRoyalties] Fee as numeric value between 0 and 10000 is required"⟩ s := by
          unfold setRoyalties
          rw [if_neg (by simp [hne, ha]), if_pos hfee]
        have hnotfee : ¬(fee.den = 1 ∧ 0 < fee ∧ fee < 10000) := by
          rcases hfee with h0 | h0 | h0
          · rintro ⟨-, hlt, -⟩
            rw [h0] at hlt
            exact absurd hlt (lt_irrefl 0)
          · rintro ⟨hd, -, -⟩
            exact h0 hd
          · rintro ⟨-, hlt, hgt⟩
            exact h0 ⟨hlt, hgt⟩
        refine ⟨by simp [runOp, hth, Res.callsOf], by simp [runOp, hth, Res.stateOf],
          by simp [Op.checksBoundFirst], ?_⟩
        rintro a f ⟨rfl, rfl⟩
        refine ⟨Or.inr (by simp [runOp, hth, Res.errTag]), ?_, fun hr => absurd hr.2 hnotfee⟩
        intro hp
        rw [show runOp (Op.setRoyaltiesOp address fee) s env =
            setRoyalties s address fee env from rfl, hth] at hp
        simp [Res.errTag] at hp
      · have hth : setRoyalties s address fee env =
            .thrown [] ⟨.precondition, "[SDK.setRoyalties] Contract needs to be deployed"⟩ s := by
          unfold setRoyalties
          rw [if_neg (by simp [hne, ha]), if_neg hfee, if_pos (by simp [hca])]
        have hfee2 : fee.den = 1 ∧ 0 < fee ∧ fee < 10000 := by
          rcases not_or.mp hfee with ⟨h0, h1⟩
          rcases not_or.mp h1 with ⟨h2, h3⟩
          exact ⟨Decidable.not_not.mp h2, Decidable.not_not.mp h3⟩
        refine ⟨by simp [runOp, hth, Res.callsOf], by simp [runOp, hth, Res.stateOf],
          by simp [Op.checksBoundFirst], ?_⟩
        rintro a f ⟨rfl, rfl⟩
        exact ⟨Or.inl (by simp [runOp, hth, Res.errTag]),
          fun _ => ⟨ha, hfee2⟩, fun _ => by simp [runOp, hth, Res.errTag]⟩
    · have hcond : ((address == "") || !isAddress address) = true := by
        simp [Bool.eq_false_iff.mpr ha]
      have hth : setRoyalties s address fee env =
          .thrown [] ⟨.validation, "[SDK.setRoyalties] Address is required"⟩ s := by
        unfold setRoyalties
        rw [if_pos hcond]
      refine ⟨by simp [runOp, hth, Res.callsOf], by simp [runOp, hth, Res.stateOf],
        by simp [Op.checksBoundFirst], ?_⟩
      rintro a f ⟨rfl, rfl⟩
      refine ⟨Or.inr (by simp [runOp, hth, Res.errTag]), ?_, fun hr => absurd hr.1 ha⟩
      intro hp
      rw [show runOp (Op.setRoyaltiesOp address fee) s env =
          setRoyalties s address fee env from rfl, hth] at hp
      simp [Res.errTag] at hp
  | mintOp a uri =>
    simp [runOp, mint, hu, Res.callsOf, Res.stateOf, Res.errTag, Op.checksBoundFirst]
  | transferOp a b t =>
    simp [runOp, transfer, hu, Res.callsOf, Res.stateOf, Res.errTag, Op.checksBoundFirst]
  | approveTransferOp a t =>
    simp [runOp, approveTransfer, hu, Res.callsOf, Res.stateOf, Res.errTag,
      Op.checksBoundFirst]
  | setApprovalForAllOp a v =>
    simp [runOp, setApprovalForAll, hu, Res.callsOf, Res.stateOf, Res.errTag,
      Op.checksBoundFirst]
  | setContractURIOp uri =>
    simp [runOp, setContractURI, hu, Res.callsOf, Res.stateOf, Res.errTag,
      Op.checksBoundFirst]
  | addMinterOp a =>
    simp [runOp, addMinter, hu, Res.callsOf, Res.stateOf, Res.errTag, Op.checksBoundFirst]
  | removeMinterOp a =>
    simp [runOp, removeMinter, hu, Res.callsOf, Res.stateOf, Res.errTag,
      Op.checksBoundFirst]
  | renounceMinterOp a =>
    simp [runOp, renounceMinter, hu, Res.callsOf, Res.stateOf, Res.errTag,
      Op.checksBoundFirst]
  | isMinterOp a =>
    simp [runOp, isMinter, hu, Res.callsOf, Res.stateOf, Res.errTag, Op.checksBoundFirst]
  | addAdminOp a =>
    simp [runOp, addAdmin, hu, Res.callsOf, Res.stateOf, Res.errTag, Op.checksBoundFirst]
  | removeAdminOp a =>
    simp [runOp, removeAdmin, hu, Res.callsOf, Res.stateOf, Res.errTag,
      Op.checksBoundFirst]
  | renounceAdminOp a =>
    simp [runOp, renounceAdmin, hu, Res.callsOf, Res.stateOf, Res.errTag,
      Op.checksBoundFirst]
  | isAdminOp a =>
    simp [runOp, isAdmin, hu, Res.callsOf, Res.stateOf, Res.errTag, Op.checksBoundFirst]

/-- C3 witness: `mint` on the unbound freshly-constructed instance raises a
precondition-tagged error without any on-chain call. -/
theorem unbound_ops_precondition_witness :
    (runOp (.mintOp addrA "ipfs") (newInstance true) (.ok ())).callsOf = [] ∧
    (runOp (.mintOp addrA "ipfs") (newInstance true) (.ok ())).errTag =
      some ErrTag.precondition :=
  ⟨(unbound_ops_precondition (.mintOp addrA "ipfs") (newInstance true) (.ok ())
      (by decide)).1,
   (unbound_ops_precondition (.mintOp addrA "ipfs") (newInstance true) (.ok ())
      (by decide)).2.2.1 rfl⟩

/-- C4 counterexample: the unprefixed 40-hex string `bareAddr` has length
40 and no 0x prefix — wrong length and shape for the canonical 0x-prefixed
form — yet ethers.utils.isAddress accepts it (the getAddress regex makes
the 0x prefix optional), so `mint` on the bound instance passes validation
and proceeds to the on-chain call instead of raising a ValidationError. -/
theorem bare_hex_address_counterexample :
    bareAddr.length = 40 ∧ bareAddr.take 2 ≠ "0x" ∧ isAddress bareAddr = true ∧
    mint boundS bareAddr "ipfs" (.ok ()) =
      .ok [ChainCall.mintWithTokenURI bareAddr "ipfs" (some 6000000)] () boundS ∧
    (mint boundS bareAddr "ipfs" (.ok ())).errTag = none := by
  refine ⟨rfl, by decide, by decide, by decide, by decide⟩

/-- C4 (amended): for every malformed address — one matching none of the
address forms ethers accepts: neither the optionally 0x-prefixed 40-hex
form (empty, wrong length for that form, or containing a non-hex
character) nor the ICAP shape — every address-taking operation raises a
ValidationError before any on-chain call, leaving the instance state
unchanged: the bound-required operations on any instance passing their
deployed-or-loaded guard (in either address slot of `transfer`),
`setRoyalties` on any instance at all, and `loadContract` on any
not-yet-bound instance. -/
theorem malformed_address_rejected :
    ∀ a, malformedAddress a →
      (∀ (s : ERC721State) (env : Except String Unit), unboundCheck s = false →
        (∀ uri, rejectedByValidation (mint s a uri env) s) ∧
        (∀ dest t, rejectedByValidation (transfer s a dest t env) s) ∧
        (∀ source t, isAddress source = true →
          rejectedByValidation (transfer s source a t env) s) ∧
        (∀ t, rejectedByValidation (approveTransfer s a t env) s) ∧
        (∀ v, rejectedByValidation (setApprovalForAll s a v env) s) ∧
        rejectedByValidation (addMinter s a env) s ∧
        rejectedByValidation (removeMinter s a env) s ∧
        rejectedByValidation (renounceMinter s a env) s ∧
        rejectedByValidation (isMinter s a env) s ∧
        rejectedByValidation (addAdmin s a env) s ∧
        rejectedByValidation (removeAdmin s a env) s ∧
        rejectedByValidation (renounceAdmin s a env) s ∧
        rejectedByValidation (isAdmin s a env) s) ∧
      (∀ (s : ERC721State) (fee : ℚ) (env : Except String Unit),
        rejectedByValidation (setRoyalties s a fee env) s) ∧
      (∀ s : ERC721State, alreadyBoundCheck s = false →
        rejectedByValidation (loadContract s a) s) := by
  intro a hm
  have haf : isAddress a = false := isAddress_eq_false_of_malformed hm
  refine ⟨fun s env hb => ?_, fun s fee env => ?_, fun s hb => ?_⟩
  · refine ⟨fun uri => ?_, fun dest t => ?_, fun source t hs => ?_, fun t => ?_,
      fun v => ?_, ?_, ?_, ?_, ?_, ?_, ?_, ?_, ?_⟩
    · simp [rejectedByValidation, mint, hb, haf, Res.errTag, Res.callsOf, Res.stateOf]
    · simp [rejectedByValidation, transfer, hb, haf, Res.errTag, Res.callsOf, Res.stateOf]
    · simp [rejectedByValidation, transfer, hb, haf, hs, isAddress_ne_empty hs,
        Res.errTag, Res.callsOf, Res.stateOf]
    · simp [rejectedByValidation, approveTransfer, hb, haf, Res.errTag, Res.callsOf,
        Res.stateOf]
    · simp [rejectedByValidation, setApprovalForAll, hb, haf, Res.errTag, Res.callsOf,
        Res.stateOf]
    · simp [rejectedByValidation, addMinter, hb, haf, Res.errTag, Res.callsOf, Res.stateOf]
    · simp [rejectedByValidation, removeMinter, hb, haf, Res.errTag, Res.callsOf,
        Res.stateOf]
    · simp [rejectedByValidation, renounceMinter, hb, haf, Res.errTag, Res.callsOf,
        Res.stateOf]
    · simp [rejectedByValidation, isMinter, hb, haf, Res.errTag, Res.callsOf, Res.stateOf]
    · simp [rejectedByValidation, addAdmin, hb, haf, Res.errTag, Res.callsOf, Res.stateOf]
    · simp [rejectedByValidation, removeAdmin, hb, haf, Res.errTag, Res.callsOf,
        Res.stateOf]
    · simp [rejectedByValidation, renounceAdmin, hb, haf, Res.errTag, Res.callsOf,
        Res.stateOf]
    · simp [rejectedByValidation, isAdmin, hb, haf, Res.errTag, Res.callsOf, Res.stateOf]
  · simp [rejectedByValidation, setRoyalties, haf, Res.errTag, Res.callsOf, Res.stateOf]
  · simp [rejectedByValidation, loadContract, hb, haf, Res.errTag, Res.callsOf,
      Res.stateOf]

/-- C4 witness: the malformed (wrong-length) address `0x123` is rejected by
`mint` on the bound instance with no chain call and no state change. -/
theorem malformed_address_rejected_witness :
    malformedAddress "0x123" ∧
    rejectedByValidation (mint boundS "0x123" "ipfs" (.ok ())) boundS :=
  ⟨by decide,
   ((malformed_address_rejected "0x123" (by decide)).1 boundS (.ok ()) (by decide)).1 "ipfs"⟩

/-- C5 counterexample: `approveTransfer` on the bound instance with a valid
address and tokenId 1 reaches the on-chain `approve` call with no gasLimit
override at all, contradicting the claim that every transfer/approval
operation passes the fixed gas ceiling. -/
theorem approveTransfer_gas_counterexample :
    approveTransfer boundS addrB 1 (.ok ()) =
      .ok [ChainCall.approve addrB 1 none] () boundS ∧
    ((approveTransfer boundS addrB 1 (.ok ())).callsOf.map ChainCall.gasOverride) =
      [none] := by
  constructor <;> decide

/-- C5 (amended): on a bound instance with valid inputs, `transfer` invokes
`safeTransferFrom` with the fixed gasLimit override 6000000, while
`approveTransfer` and `setApprovalForAll` invoke `approve` and
`setApprovalForAll` with no gas-limit override. -/
theorem gas_overrides_per_operation :
    ∀ (s : ERC721State) (h : Handle) (env : Except String Unit),
      s.contractDeployed = some h →
      (∀ source dest t, isAddress source = true → isAddress dest = true → t.den = 1 →
        (transfer s source dest t env).callsOf =
          [ChainCall.safeTransferFrom source dest t (some 6000000)] ∧
        ((transfer s source dest t env).callsOf.map ChainCall.gasOverride) =
          [some 6000000]) ∧
      (∀ dest t, isAddress dest = true → t.den = 1 →
        (approveTransfer s dest t env).callsOf = [ChainCall.approve dest t none] ∧
        ((approveTransfer s dest t env).callsOf.map ChainCall.gasOverride) = [none]) ∧
      (∀ dest b, isAddress dest = true →
        (setApprovalForAll s dest (.boolean b) env).callsOf =
          [ChainCall.setApprovalForAll dest (.boolean b) none] ∧
        ((setApprovalForAll s dest (.boolean b) env).callsOf.map ChainCall.gasOverride) =
          [none]) := by
  intro s h env hcd
  have hb : unboundCheck s = false := by simp [unboundCheck, hcd]
  refine ⟨fun source dest t hs hd ht => ?_, fun dest t hd ht => ?_, fun dest b hd => ?_⟩
  · have hc : (transfer s source dest t env).callsOf =
        [ChainCall.safeTransferFrom source dest t (some 6000000)] := by
      unfold transfer
      rw [if_neg (by simp [hb]), if_neg (by simp [isAddress_ne_empty hs, hs]),
        if_neg (by simp [isAddress_ne_empty hd, hd]), if_neg (by simp [ht])]
      unfold callContract
      rw [hcd]
      cases env <;> rfl
    exact ⟨hc, by rw [hc]; rfl⟩
  · have hc : (approveTransfer s dest t env).callsOf = [ChainCall.approve dest t none] := by
      unfold approveTransfer
      rw [if_neg (by simp [hb]), if_neg (by simp [isAddress_ne_empty hd, hd]),
        if_neg (by simp [ht])]
      unfold callContract
      rw [hcd]
      cases env <;> rfl
    exact ⟨hc, by rw [hc]; rfl⟩
  · have hc : (setApprovalForAll s dest (.boolean b) env).callsOf =
        [ChainCall.setApprovalForAll dest (.boolean b) none] := by
      unfold setApprovalForAll
      rw [if_neg (by simp [hb]), if_neg (by simp [isAddress_ne_empty hd, hd]),
        if_neg (by simp [isBoolean])]
      unfold callContract
      rw [hcd]
      cases env <;> rfl
    exact ⟨hc, by rw [hc]; rfl⟩

/-- C5 witness: the three operations on the bound instance with valid
inputs, showing the gas override of each emitted call. -/
theorem gas_overrides_per_operation_witness :
    ((transfer boundS addrA addrB 1 (.ok ())).callsOf.map ChainCall.gasOverride) =
        [some 6000000] ∧
    ((approveTransfer boundS addrB 1 (.ok ())).callsOf.map ChainCall.gasOverride) =
        [none] ∧
    ((setApprovalForAll boundS addrB (.boolean true) (.ok ())).callsOf.map
        ChainCall.gasOverride) = [none] :=
  ⟨((gas_overrides_per_operation boundS ⟨addrA⟩ (.ok ()) rfl).1 addrA addrB 1
      (by decide) (by decide) (by decide)).2,
   ((gas_overrides_per_operation boundS ⟨addrA⟩ (.ok ()) rfl).2.1 addrB 1
      (by decide) (by decide)).2,
   ((gas_overrides_per_operation boundS ⟨addrA⟩ (.ok ()) rfl).2.2 addrB true
      (by decide)).2⟩

/-- C7 counterexample: `transfer` on the bound instance with valid
addresses accepts the negative integer tokenId -1 and proceeds to the
on-chain call instead of raising a ValidationError. -/
theorem transfer_negative_tokenId_counterexample :
    transfer boundS addrA addrB (-1) (.ok ()) =
      .ok [ChainCall.safeTransferFrom addrA addrB (-1) (some 6000000)] () boundS ∧
    (transfer boundS addrA addrB (-1) (.ok ())).errTag ≠ some ErrTag.validation := by
  constructor <;> decide

/-- C7 (amended): for `transfer` and `approveTransfer` on a bound instance
with valid addresses, the tokenId precondition is only `Number.isInteger`:
every non-integer tokenId is rejected with the TokenId ValidationError
before any on-chain call, while every integer tokenId, negative integers
included, proceeds to the on-chain call. -/
theorem tokenId_integer_gate :
    ∀ (s : ERC721State) (h : Handle) (source dest : String) (t : ℚ)
      (env : Except String Unit),
      s.contractDeployed = some h →
      isAddress source = true → isAddress dest = true →
      (t.den ≠ 1 →
        transfer s source dest t env =
          .thrown [] ⟨.validation, "[ERC721Mintable.transfer] TokenId should be an integer."⟩ s ∧
        approveTransfer s dest t env =
          .thrown [] ⟨.validation,
            "[ERC721Mintable.approveTransfer] TokenId should be an integer."⟩ s) ∧
      (t.den = 1 →
        (transfer s source dest t env).callsOf =
          [ChainCall.safeTransferFrom source dest t (some 6000000)] ∧
        (approveTransfer s dest t env).callsOf = [ChainCall.approve dest t none]) := by
  intro s h source dest t env hcd hs hd
  have hb : unboundCheck s = false := by simp [unboundCheck, hcd]
  constructor
  · intro ht
    constructor
    · unfold transfer
      rw [if_neg (by simp [hb]), if_neg (by simp [isAddress_ne_empty hs, hs]),
        if_neg (by simp [isAddress_ne_empty hd, hd]), if_pos ht]
    · unfold approveTransfer
      rw [if_neg (by simp [hb]), if_neg (by simp [isAddress_ne_empty hd, hd]), if_pos ht]
  · intro ht
    constructor
    · unfold transfer
      rw [if_neg (by simp [hb]), if_neg (by simp [isAddress_ne_empty hs, hs]),
        if_neg (by simp [isAddress_ne_empty hd, hd]), if_neg (by simp [ht])]
      unfold callContract
      rw [hcd]
      cases env <;> rfl
    · unfold approveTransfer
      rw [if_neg (by simp [hb]), if_neg (by simp [isAddress_ne_empty hd, hd]),
        if_neg (by simp [ht])]
      unfold callContract
      rw [hcd]
      cases env <;> rfl

/-- C7 witness: the non-integer tokenId 9999.5 is rejected by `transfer`
on the bound instance; the integer 1 proceeds to the call. -/
theorem tokenId_integer_gate_witness :
    transfer boundS addrA addrB fee9999p5 (.ok ()) =
      .thrown [] ⟨.validation, "[ERC721Mintable.transfer] TokenId should be an integer."⟩
        boundS ∧
    (transfer boundS addrA addrB 1 (.ok ())).callsOf =
      [ChainCall.safeTransferFrom addrA addrB 1 (some 6000000)] :=
  ⟨((tokenId_integer_gate boundS ⟨addrA⟩ addrA addrB fee9999p5 (.ok ()) rfl
      (by decide) (by decide)).1 (by decide)).1,
   ((tokenId_integer_gate boundS ⟨addrA⟩ addrA addrB 1 (.ok ()) rfl
      (by decide) (by decide)).2 (by decide)).1⟩

end InfuraSdk
